import Mathlib

/-
Verification of the elora LoRaWAN simulation module against its
natural-language specification.

Shallow embedding of:
  * src/model/lora-phy.cc          (LoraPhy::GetTSym, LoraPhy::GetOnAirTime)
  * src/helper/lora-packet-tracker.cc  (LoraPacketTracker and its callbacks
    and counting functions)

Modelling conventions:
  * ns-3 simulated Time is a 64-bit signed integer count of the simulator
    resolution unit; it is embedded as unbounded ℤ (no simulation reaches
    the overflow bound), with the second as the unit wherever a literal
    duration occurs in the tracker (Seconds (5) becomes 5).
    Time::Max () is the top element, embedded via WithTop ℤ where a field
    can hold it.
  * C++ double arithmetic in the PHY timing formulas and in the statistics
    report is embedded as exact rational arithmetic over ℚ, with one
    crucial exception inside GetOnAirTime: the source computes the
    intermediate 8 * pl - 4 * sf + 28 of the numerator in uint32
    arithmetic (pl is uint32_t, sf a promoted int) and only the later
    addition of the double 16 * crc converts it to double, so that
    intermediate wraps modulo 2^32 whenever 8 * pl + 28 < 4 * sf; the
    embedding reproduces the wrap with an explicit % 2^32 on ℤ.  The
    remaining double computations are exact on the quantities involved
    (integers below 2^33 and quotients with small denominators) except for
    the final rounding, which no claim depends on.  The IEEE result
    0.0/0.0 = NaN of an unguarded division is embedded as the value none
    of an Option ℚ field.
  * std::map is embedded as an association list with unique keys:
    map::insert never overwrites an existing key (minsert), map::find is
    key lookup (mfind), and mutation through a found iterator updates the
    entry in place (mupdate).  The counting loops iterate the list; every
    quantity they compute is independent of iteration order.
  * Ptr<Packet const> keys compare by pointer identity; a packet is
    embedded with an identity number pid standing for the pointer.
  * NS_ABORT_MSG is a reported fatal error (TrackerError.abortPacketNotFound).
    Dereferencing the end iterator of std::map::find, which the five PHY
    outcome callbacks do on an unknown packet, is undefined behavior in the
    source; it is embedded as the distinguished error
    TrackerError.uncheckedEndDereference so that theorems can tell it apart
    from a reported abort.
-/

namespace Elora

/-- Outcome of one reception attempt, lora-packet-tracker.h enum
PhyPacketOutcome. -/
inductive PhyPacketOutcome
  | RECEIVED
  | INTERFERED
  | NO_MORE_RECEIVERS
  | UNDER_SENSITIVITY
  | LOST_BECAUSE_TX
  | UNSET
deriving DecidableEq, Repr

/-- The data of an ns-3 packet that the tracked code reads.  pid models the
Ptr identity used as map key, size models GetSize (), sfTag the spreading
factor carried by the LoraTag, and macUplink the result of
LorawanMacHeader::IsUplink () on the MAC header at the front of the buffer
(the header class itself is outside src/). -/
structure Packet where
  pid : ℕ
  size : ℕ
  sfTag : ℕ
  macUplink : Bool
deriving DecidableEq, Repr

/-- LoraPacketTracker::IsUplink: copy the packet, remove the MAC header,
return mHdr.IsUplink ().  Modelled from the spec for the header part: the
MAC header marks the packet as uplink or not. -/
def IsUplink (packet : Packet) : Bool :=
  packet.macUplink

/-- Association-list lookup, embedding std::map::find (some v when the key
is present). -/
def mfind {K V : Type} [DecidableEq K] (k : K) : List (K × V) → Option V
  | [] => none
  | e :: rest => if e.1 = k then some e.2 else mfind k rest

/-- Embedding of std::map::insert (std::pair (k, v)): no effect when the
key is already present, otherwise the entry is added. -/
def minsert {K V : Type} [DecidableEq K] (k : K) (v : V) (m : List (K × V)) :
    List (K × V) :=
  match mfind k m with
  | some _ => m
  | none => (k, v) :: m

/-- Embedding of mutating the mapped value behind the iterator returned by
std::map::find: the (unique) entry with key k is replaced. -/
def mupdate {K V : Type} [DecidableEq K] (k : K) (f : V → V) :
    List (K × V) → List (K × V)
  | [] => []
  | e :: rest => if e.1 = k then (e.1, f e.2) :: rest else e :: mupdate k f rest

/-- lora-packet-tracker.h struct PacketStatus (PHY level). -/
structure PacketStatus where
  packet : Packet
  senderId : ℕ
  sendTime : ℤ
  outcomes : List (ℕ × PhyPacketOutcome)
deriving DecidableEq, Repr

/-- lora-packet-tracker.h struct MacPacketStatus.  receivedTime is
initialized to Time::Max (), the top element. -/
structure MacPacketStatus where
  packet : Packet
  senderId : ℕ
  sendTime : ℤ
  receivedTime : WithTop ℤ
  receptionTimes : List (ℕ × ℤ)
deriving DecidableEq

/-- lora-packet-tracker.h struct RetransmissionStatus. -/
structure RetransmissionStatus where
  firstAttempt : ℤ
  finishTime : ℤ
  reTxAttempts : ℕ
  successful : Bool
deriving DecidableEq, Repr

/-- The three maps owned by LoraPacketTracker. -/
structure LoraPacketTracker where
  m_packetTracker : List (ℕ × PacketStatus)
  m_macPacketTracker : List (ℕ × MacPacketStatus)
  m_reTransmissionTracker : List (ℕ × RetransmissionStatus)
deriving DecidableEq

/-- Errors surfaced by the embedded tracker operations.  assertFailed
models a failing NS_ASSERT, abortPacketNotFound the reported
NS_ABORT_MSG (Packet not found in tracker), and uncheckedEndDereference
the undefined behavior of writing through the end iterator when
std::map::find missed and the code did not check. -/
inductive TrackerError
  | assertFailed
  | abortPacketNotFound
  | uncheckedEndDereference
deriving DecidableEq, Repr

/-- LoraPacketTracker::MacTransmissionCallback.  ctx is
Simulator::GetContext () and now is Simulator::Now (). -/
def MacTransmissionCallback (packet : Packet) (ctx : ℕ) (now : ℤ)
    (t : LoraPacketTracker) : LoraPacketTracker :=
  if IsUplink packet then
    let status : MacPacketStatus :=
      { packet := packet, senderId := ctx, sendTime := now,
        receivedTime := ⊤, receptionTimes := [] }
    { t with m_macPacketTracker := minsert packet.pid status t.m_macPacketTracker }
  else t

/-- LoraPacketTracker::RequiredTransmissionsCallback (no IsUplink guard in
the source). -/
def RequiredTransmissionsCallback (reqTx : ℕ) (success : Bool)
    (firstAttempt : ℤ) (packet : Packet) (now : ℤ)
    (t : LoraPacketTracker) : LoraPacketTracker :=
  let entry : RetransmissionStatus :=
    { firstAttempt := firstAttempt, finishTime := now,
      reTxAttempts := reqTx, successful := success }
  { t with m_reTransmissionTracker :=
      minsert packet.pid entry t.m_reTransmissionTracker }

/-- The in-place mutation MacGwReceptionCallback performs on the found
MacPacketStatus: insert (ctx, now) into receptionTimes, then lower
receivedTime to now when now < receivedTime. -/
def macGwUpdate (ctx : ℕ) (now : ℤ) (st : MacPacketStatus) : MacPacketStatus :=
  { st with
    receptionTimes := minsert ctx now st.receptionTimes,
    receivedTime :=
      if (now : WithTop ℤ) < st.receivedTime then (now : WithTop ℤ)
      else st.receivedTime }

/-- LoraPacketTracker::MacGwReceptionCallback.  When the packet is missing
from m_macPacketTracker the source runs NS_ABORT_MSG. -/
def MacGwReceptionCallback (packet : Packet) (ctx : ℕ) (now : ℤ)
    (t : LoraPacketTracker) : Except TrackerError LoraPacketTracker :=
  if IsUplink packet then
    match mfind packet.pid t.m_macPacketTracker with
    | some _ =>
        let m := mupdate packet.pid (macGwUpdate ctx now) t.m_macPacketTracker
        Except.ok { t with m_macPacketTracker := m }
    | none => Except.error TrackerError.abortPacketNotFound
  else Except.ok t

/-- LoraPacketTracker::TransmissionCallback (PHY level). -/
def TransmissionCallback (packet : Packet) (edId : ℕ) (now : ℤ)
    (t : LoraPacketTracker) : LoraPacketTracker :=
  if IsUplink packet then
    let status : PacketStatus :=
      { packet := packet, senderId := edId, sendTime := now, outcomes := [] }
    { t with m_packetTracker := minsert packet.pid status t.m_packetTracker }
  else t

/-- Common body of the five PHY outcome callbacks, which differ only in the
enum constant they insert: find the packet in m_packetTracker and insert
(gwId, outcome) into its outcomes map.  The source does not check the find
result; on a miss it dereferences the end iterator (undefined behavior),
embedded as the error uncheckedEndDereference. -/
def phyOutcomeCallback (outcome : PhyPacketOutcome) (packet : Packet)
    (gwId : ℕ) (t : LoraPacketTracker) : Except TrackerError LoraPacketTracker :=
  if IsUplink packet then
    match mfind packet.pid t.m_packetTracker with
    | some _ =>
        let m := mupdate packet.pid
          (fun st => { st with outcomes := minsert gwId outcome st.outcomes })
          t.m_packetTracker
        Except.ok { t with m_packetTracker := m }
    | none => Except.error TrackerError.uncheckedEndDereference
  else Except.ok t

/-- LoraPacketTracker::PacketReceptionCallback. -/
def PacketReceptionCallback (packet : Packet) (gwId : ℕ)
    (t : LoraPacketTracker) : Except TrackerError LoraPacketTracker :=
  phyOutcomeCallback PhyPacketOutcome.RECEIVED packet gwId t

/-- LoraPacketTracker::InterferenceCallback. -/
def InterferenceCallback (packet : Packet) (gwId : ℕ)
    (t : LoraPacketTracker) : Except TrackerError LoraPacketTracker :=
  phyOutcomeCallback PhyPacketOutcome.INTERFERED packet gwId t

/-- LoraPacketTracker::NoMoreReceiversCallback. -/
def NoMoreReceiversCallback (packet : Packet) (gwId : ℕ)
    (t : LoraPacketTracker) : Except TrackerError LoraPacketTracker :=
  phyOutcomeCallback PhyPacketOutcome.NO_MORE_RECEIVERS packet gwId t

/-- LoraPacketTracker::UnderSensitivityCallback. -/
def UnderSensitivityCallback (packet : Packet) (gwId : ℕ)
    (t : LoraPacketTracker) : Except TrackerError LoraPacketTracker :=
  phyOutcomeCallback PhyPacketOutcome.UNDER_SENSITIVITY packet gwId t

/-- LoraPacketTracker::LostBecauseTxCallback. -/
def LostBecauseTxCallback (packet : Packet) (gwId : ℕ)
    (t : LoraPacketTracker) : Except TrackerError LoraPacketTracker :=
  phyOutcomeCallback PhyPacketOutcome.LOST_BECAUSE_TX packet gwId t

/-- The six counters accumulated by CountPhyPacketsPerGw and
PrintPhyPacketsPerGw, named after the header comment of both functions:
totPacketsSent receivedPackets interferedPackets noMoreGwPackets
underSensitivityPackets lostBecauseTxPackets. -/
structure PacketCounts where
  sent : ℕ
  received : ℕ
  interfered : ℕ
  noMoreReceivers : ℕ
  underSensitivity : ℕ
  lostBecauseTx : ℕ
deriving DecidableEq, Repr

/-- One iteration of the counting loop shared by CountPhyPacketsPerGw and
PrintPhyPacketsPerGw: when sendTime lies in [startTime, stopTime] the
record counts as sent, and when its outcomes map has an entry for gwId the
switch bumps the counter of that outcome (UNSET bumps nothing). -/
def tallyStep (startTime stopTime : ℤ) (gwId : ℕ) (c : PacketCounts)
    (st : PacketStatus) : PacketCounts :=
  if startTime ≤ st.sendTime ∧ st.sendTime ≤ stopTime then
    let c1 := { c with sent := c.sent + 1 }
    match mfind gwId st.outcomes with
    | some PhyPacketOutcome.RECEIVED =>
        { c1 with received := c1.received + 1 }
    | some PhyPacketOutcome.INTERFERED =>
        { c1 with interfered := c1.interfered + 1 }
    | some PhyPacketOutcome.NO_MORE_RECEIVERS =>
        { c1 with noMoreReceivers := c1.noMoreReceivers + 1 }
    | some PhyPacketOutcome.UNDER_SENSITIVITY =>
        { c1 with underSensitivity := c1.underSensitivity + 1 }
    | some PhyPacketOutcome.LOST_BECAUSE_TX =>
        { c1 with lostBecauseTx := c1.lostBecauseTx + 1 }
    | some PhyPacketOutcome.UNSET => c1
    | none => c1
  else c

/-- The loop over m_packetTracker shared by both counting functions. -/
def tallyPhyPacketsPerGw (startTime stopTime : ℤ) (gwId : ℕ)
    (t : LoraPacketTracker) : PacketCounts :=
  t.m_packetTracker.foldl (fun c e => tallyStep startTime stopTime gwId c e.2)
    { sent := 0, received := 0, interfered := 0, noMoreReceivers := 0,
      underSensitivity := 0, lostBecauseTx := 0 }

/-- LoraPacketTracker::CountPhyPacketsPerGw, as the vector of six counters
it returns.  Its switch maps RECEIVED, INTERFERED, NO_MORE_RECEIVERS,
UNDER_SENSITIVITY, LOST_BECAUSE_TX to indices 1, 2, 3, 4, 5. -/
def CountPhyPacketsPerGw (startTime stopTime : ℤ) (gwId : ℕ)
    (t : LoraPacketTracker) : List ℕ :=
  let c := tallyPhyPacketsPerGw startTime stopTime gwId t
  [c.sent, c.received, c.interfered, c.noMoreReceivers,
   c.underSensitivity, c.lostBecauseTx]

/-- LoraPacketTracker::PrintPhyPacketsPerGw, as the sequence of six numbers
it renders space-separated into its output string.  Unlike
CountPhyPacketsPerGw, its switch maps LOST_BECAUSE_TX to index 4 and
UNDER_SENSITIVITY to index 5. -/
def PrintPhyPacketsPerGw (startTime stopTime : ℤ) (gwId : ℕ)
    (t : LoraPacketTracker) : List ℕ :=
  let c := tallyPhyPacketsPerGw startTime stopTime gwId t
  [c.sent, c.received, c.interfered, c.noMoreReceivers,
   c.lostBecauseTx, c.underSensitivity]

/-- LoraPacketTracker::CountMacPacketsGlobally, as the pair (sent,
received) it renders. -/
def CountMacPacketsGlobally (startTime stopTime : ℤ)
    (t : LoraPacketTracker) : ℕ × ℕ :=
  t.m_macPacketTracker.foldl
    (fun acc e =>
      if startTime ≤ e.2.sendTime ∧ e.2.sendTime ≤ stopTime then
        (acc.1 + 1, if e.2.receptionTimes.length ≠ 0 then acc.2 + 1 else acc.2)
      else acc)
    (0, 0)

/-- The classification category a packet record falls in inside
PrintSimulationStatistics. -/
inductive StatCategory
  | received
  | interfered
  | noMorePaths
  | busyGw
  | underSens
deriving DecidableEq, Repr

/-- The flag-collecting loop over one record outcomes map in
PrintSimulationStatistics: arguments are the interfered, noPaths and
busyGw flags; the returned quadruple is (received, interfered, noPaths,
busyGw).  On RECEIVED the loop breaks at once. -/
def statLoop : List (ℕ × PhyPacketOutcome) → Bool → Bool → Bool →
    Bool × Bool × Bool × Bool
  | [], interfered, noPaths, busyGw => (false, interfered, noPaths, busyGw)
  | e :: rest, interfered, noPaths, busyGw =>
    if e.2 = PhyPacketOutcome.RECEIVED then (true, interfered, noPaths, busyGw)
    else if interfered = false ∧ e.2 = PhyPacketOutcome.INTERFERED then
      statLoop rest true noPaths busyGw
    else if noPaths = false ∧ e.2 = PhyPacketOutcome.NO_MORE_RECEIVERS then
      statLoop rest interfered true busyGw
    else if busyGw = false ∧ e.2 = PhyPacketOutcome.LOST_BECAUSE_TX then
      statLoop rest interfered noPaths true
    else statLoop rest interfered noPaths busyGw

/-- The if-chain after the loop in PrintSimulationStatistics: received,
else interfered, else noPaths, else busyGw, else under sensitivity. -/
def classifyFlags : Bool × Bool × Bool × Bool → StatCategory
  | (r, i, n, b) =>
    if r then StatCategory.received
    else if i then StatCategory.interfered
    else if n then StatCategory.noMorePaths
    else if b then StatCategory.busyGw
    else StatCategory.underSens

/-- The category PrintSimulationStatistics assigns to one packet record,
as computed by the source loop. -/
def recordCategory (outcomes : List (ℕ × PhyPacketOutcome)) : StatCategory :=
  classifyFlags (statLoop outcomes false false false)

/-- The classification as the spec words it: the priority order
Received over Interfered over NoMoreReceivers over LostBecauseTx over
UnderSensitivity across the outcomes recorded at all gateways. -/
def priorityClassify (outcomes : List (ℕ × PhyPacketOutcome)) : StatCategory :=
  if ∃ e ∈ outcomes, e.2 = PhyPacketOutcome.RECEIVED then StatCategory.received
  else if ∃ e ∈ outcomes, e.2 = PhyPacketOutcome.INTERFERED then
    StatCategory.interfered
  else if ∃ e ∈ outcomes, e.2 = PhyPacketOutcome.NO_MORE_RECEIVERS then
    StatCategory.noMorePaths
  else if ∃ e ∈ outcomes, e.2 = PhyPacketOutcome.LOST_BECAUSE_TX then
    StatCategory.busyGw
  else StatCategory.underSens

/-- Does the statLoop classification of a record land in the given
category? -/
def categoryIs (cat : StatCategory) (st : PacketStatus) : Bool :=
  decide (recordCategory st.outcomes = cat)

/-- lora-phy.h struct LoraTxParameters.  bandwidthHz is a double in the
source, embedded as ℚ. -/
structure LoraTxParameters where
  sf : ℕ
  headerDisabled : Bool
  codingRate : ℕ
  bandwidthHz : ℚ
  nPreamble : ℕ
  crcEnabled : Bool
  lowDataRateOptimizationEnabled : Bool
deriving DecidableEq, Repr

/-- LoraPhy::GetTSym: Seconds (pow (2, int (sf)) / bandwidthHz), in
seconds. -/
def GetTSym (txParams : LoraTxParameters) : ℚ :=
  (2 ^ txParams.sf : ℚ) / txParams.bandwidthHz

/-- LoraPhy::GetOnAirTime, in seconds, following the source line by line.
In num = 8 * pl - 4 * txParams.sf + 28 + 16 * crc - 20 * h, the left part
8 * pl - 4 * sf + 28 is computed in uint32 arithmetic (pl is uint32_t and
sf a promoted int, so the three operations stay unsigned and wrap modulo
2^32); the first double operand, 16 * crc, then converts that uint32
value exactly to double.  The wrap is embedded as % 2^32 on ℤ; the
remaining arithmetic is exact in double and embedded over ℚ. -/
def GetOnAirTime (packet : Packet) (txParams : LoraTxParameters) : ℚ :=
  let tSym : ℚ := GetTSym txParams
  let tPreamble : ℚ := ((txParams.nPreamble : ℚ) + 4.25) * tSym
  let pl : ℕ := packet.size
  let de : ℚ := if txParams.lowDataRateOptimizationEnabled then 1 else 0
  let h : ℚ := if txParams.headerDisabled then 1 else 0
  let crc : ℚ := if txParams.crcEnabled then 1 else 0
  let numInt : ℤ := (8 * (pl : ℤ) - 4 * (txParams.sf : ℤ) + 28) % 2 ^ 32
  let num : ℚ := (numInt : ℚ) + 16 * crc - 20 * h
  let den : ℚ := 4 * ((txParams.sf : ℚ) - 2 * de)
  let payloadSymbNb : ℚ :=
    8 + max ((⌈num / den⌉ : ℚ) * ((txParams.codingRate : ℚ) + 4)) 0
  let tPayload : ℚ := payloadSymbNb * tSym
  tPreamble + tPayload

/-- The on-air-time formula exactly as the specification states it
(section 4.1), for the refinement claim comparing it with GetOnAirTime. -/
def onAirTimeSpec (payloadBytes sf codingRate : ℕ) (bandwidthHz : ℚ)
    (preambleSymbols : ℕ) (headerDisabled crcEnabled
    lowDataRateOptimization : Bool) : ℚ :=
  let symbolDuration : ℚ := (2 ^ sf : ℚ) / bandwidthHz
  let preambleTime : ℚ := ((preambleSymbols : ℚ) + 4.25) * symbolDuration
  let numerator : ℚ := 8 * (payloadBytes : ℚ) - 4 * (sf : ℚ) + 28 +
    16 * (if crcEnabled then 1 else 0) - 20 * (if headerDisabled then 1 else 0)
  let denominator : ℚ :=
    4 * ((sf : ℚ) - 2 * (if lowDataRateOptimization then 1 else 0))
  let payloadSymbolCount : ℚ :=
    8 + max 0 ((⌈numerator / denominator⌉ : ℚ) * ((codingRate : ℚ) + 4))
  let payloadTime : ℚ := payloadSymbolCount * symbolDuration
  preambleTime + payloadTime

/-- Modelled from the spec: the fixed default LoraTxParameters profile
(the field initializers live in lora-phy.h, which is not under src/; the
spec calls it a fixed default profile).  sf 7, header enabled, coding rate
1, bandwidth 125000 Hz, 8 preamble symbols, CRC on, low-data-rate
optimization off. -/
def defaultTxParams : LoraTxParameters :=
  { sf := 7, headerDisabled := false, codingRate := 1, bandwidthHz := 125000,
    nPreamble := 8, crcEnabled := true, lowDataRateOptimizationEnabled := false }

/-- The LoraTxParameters PrintSimulationStatistics builds for one packet:
default profile, sf from the LoraTag, then low-data-rate optimization
enabled iff GetTSym of those parameters exceeds 16 milliseconds. -/
def statsParams (packet : Packet) : LoraTxParameters :=
  let params := { defaultTxParams with sf := packet.sfTag }
  { params with
    lowDataRateOptimizationEnabled := decide (GetTSym params > 16 / 1000) }

/-- The report assembled by PrintSimulationStatistics.  The five counters
are doubles holding whole numbers in the source, embedded as ℕ.  Each
percentage is counter / total * 100 computed in doubles: when total = 0 the
IEEE quotient 0.0/0.0 is NaN, embedded as none. -/
structure SimulationStatistics where
  total : ℕ
  totReceived : ℕ
  totInterfered : ℕ
  totNoMorePaths : ℕ
  totBusyGw : ℕ
  totUnderSens : ℕ
  totBytesSent : ℕ
  totBytesReceived : ℕ
  totOffTraff : ℚ
  pctReceived : Option ℚ
  pctInterfered : Option ℚ
  pctNoMorePaths : Option ℚ
  pctBusyGw : Option ℚ
  pctUnderSens : Option ℚ
  inputTraffic : ℚ
  networkThroughput : ℚ
  offeredTraffic : ℚ
deriving DecidableEq

/-- counter / total * 100 in double arithmetic: NaN (none) when total is
zero, the exact quotient otherwise. -/
def pct (counter total : ℕ) : Option ℚ :=
  if total = 0 then none else some ((counter : ℚ) / (total : ℚ) * 100)

/-- The records PrintSimulationStatistics keeps: the loop skips (continue)
records with sendTime < startTime - Seconds (5). -/
def inRangeRecords (t : LoraPacketTracker) (startTime : ℤ) :
    List PacketStatus :=
  (t.m_packetTracker.map Prod.snd).filter
    (fun st => !decide (st.sendTime < startTime - 5))

/-- The body of PrintSimulationStatistics after its NS_ASSERT: one pass
over the in-range records classifying each with the statLoop flags and
accumulating counters, bytes and offered traffic, then the derived
percentages and rates. -/
def simStats (t : LoraPacketTracker) (startTime now : ℤ) :
    SimulationStatistics :=
  let inR := inRangeRecords t startTime
  let isCat := categoryIs
  let total := inR.length
  let nReceived := (inR.filter (isCat StatCategory.received)).length
  let nInterfered := (inR.filter (isCat StatCategory.interfered)).length
  let nNoMorePaths := (inR.filter (isCat StatCategory.noMorePaths)).length
  let nBusyGw := (inR.filter (isCat StatCategory.busyGw)).length
  let nUnderSens := (inR.filter (isCat StatCategory.underSens)).length
  let bytesSent := (inR.map (fun st => st.packet.size)).sum
  let bytesReceived :=
    ((inR.filter (isCat StatCategory.received)).map
      (fun st => st.packet.size)).sum
  let offTraff :=
    (inR.map (fun st => GetOnAirTime st.packet (statsParams st.packet))).sum
  let totTime : ℚ := ((now - startTime : ℤ) : ℚ)
  { total := total, totReceived := nReceived, totInterfered := nInterfered,
    totNoMorePaths := nNoMorePaths, totBusyGw := nBusyGw,
    totUnderSens := nUnderSens, totBytesSent := bytesSent,
    totBytesReceived := bytesReceived, totOffTraff := offTraff,
    pctReceived := pct nReceived total, pctInterfered := pct nInterfered total,
    pctNoMorePaths := pct nNoMorePaths total, pctBusyGw := pct nBusyGw total,
    pctUnderSens := pct nUnderSens total,
    inputTraffic := (bytesSent : ℚ) * 8 / totTime,
    networkThroughput := (bytesReceived : ℚ) * 8 / totTime,
    offeredTraffic := offTraff / totTime }

/-- LoraPacketTracker::PrintSimulationStatistics.  The source asserts
startTime < Simulator::Now () on entry; there is no emptiness check. -/
def PrintSimulationStatistics (t : LoraPacketTracker) (startTime now : ℤ) :
    Except TrackerError SimulationStatistics :=
  if startTime < now then Except.ok (simStats t startTime now)
  else Except.error TrackerError.assertFailed

/-- Is an outcomes-map entry one of the five set outcomes (present and not
UNSET)?  Used to state which records contribute beyond the sent counter. -/
def isSetOutcome : Option PhyPacketOutcome → Bool
  | some PhyPacketOutcome.UNSET => false
  | some _ => true
  | none => false

/-- The sum of the five per-outcome counters (everything except sent). -/
def fiveSum (c : PacketCounts) : ℕ :=
  c.received + c.interfered + c.noMoreReceivers + c.underSensitivity +
    c.lostBecauseTx

/-- The MacPacketStatus invariant of the spec data model: the earliest
reception time equals the minimum over the per-gateway reception times,
or Time::Max (top) when the map is empty. -/
def MacInv (st : MacPacketStatus) : Prop :=
  st.receivedTime = (st.receptionTimes.map Prod.snd).minimum

/- Concrete values used by witnesses and counterexamples. -/

/-- An uplink packet: identity 1, 10 bytes, spreading factor 7. -/
def exPacket : Packet :=
  { pid := 1, size := 10, sfTag := 7, macUplink := true }

/-- A downlink packet (MAC header does not mark it as uplink). -/
def exDownlinkPacket : Packet :=
  { pid := 9, size := 10, sfTag := 7, macUplink := false }

/-- A tracker holding one PHY record for exPacket, sent at time 0 by
device 3, already marked RECEIVED at gateway 1. -/
def exTracker : LoraPacketTracker :=
  { m_packetTracker :=
      [(1, { packet := exPacket, senderId := 3, sendTime := 0,
             outcomes := [(1, PhyPacketOutcome.RECEIVED)] })],
    m_macPacketTracker := [], m_reTransmissionTracker := [] }

/-- The tracker with no records at all. -/
def emptyTracker : LoraPacketTracker :=
  { m_packetTracker := [], m_macPacketTracker := [],
    m_reTransmissionTracker := [] }

/-- The report computed over exTracker for the window from 0 to 10. -/
def exStats : SimulationStatistics :=
  simStats exTracker 0 10

/-- The report computed over the empty tracker for the window from 0 to
10: no packet is in range. -/
def emptyStats : SimulationStatistics :=
  simStats emptyTracker 0 10

/-- A tracker holding one PHY record, sent at time 1, whose only outcome
is UNDER_SENSITIVITY at gateway 1 (exposes the index swap between
CountPhyPacketsPerGw and PrintPhyPacketsPerGw). -/
def usTracker : LoraPacketTracker :=
  { m_packetTracker :=
      [(1, { packet := exPacket, senderId := 3, sendTime := 1,
             outcomes := [(1, PhyPacketOutcome.UNDER_SENSITIVITY)] })],
    m_macPacketTracker := [], m_reTransmissionTracker := [] }

/-- A MAC record for exPacket with one reception, gateway 1 at time 3,
and receivedTime 3. -/
def exMacStatus : MacPacketStatus :=
  { packet := exPacket, senderId := 2, sendTime := 0,
    receivedTime := ((3 : ℤ) : WithTop ℤ), receptionTimes := [(1, 3)] }

/-- A tracker holding only the MAC record exMacStatus. -/
def macTracker : LoraPacketTracker :=
  { m_packetTracker := [], m_macPacketTracker := [(1, exMacStatus)],
    m_reTransmissionTracker := [] }

/-- macTracker after gateway 2 reports MAC reception at time 4: the
reception map gains (2, 4) and receivedTime stays 3. -/
def macTrackerAfter : LoraPacketTracker :=
  { m_packetTracker := [],
    m_macPacketTracker :=
      [(1, { packet := exPacket, senderId := 2, sendTime := 0,
             receivedTime := ((3 : ℤ) : WithTop ℤ),
             receptionTimes := [(2, 4), (1, 3)] })],
    m_reTransmissionTracker := [] }

/-- A 1-byte packet at spreading factor 12 (its numerator intermediate
8*1 - 4*12 + 28 = -12 wraps in uint32 arithmetic). -/
def smallPacket : Packet :=
  { pid := 1, size := 1, sfTag := 12, macUplink := true }

/-- A 2-byte packet at spreading factor 12 (its numerator intermediate
8*2 - 4*12 + 28 = -4 wraps in uint32 arithmetic). -/
def largerPacket : Packet :=
  { pid := 2, size := 2, sfTag := 12, macUplink := true }

/-- A 3-byte packet at spreading factor 12, the smallest payload whose
numerator intermediate 8*3 - 4*12 + 28 = 4 does not wrap. -/
def byte3Packet : Packet :=
  { pid := 3, size := 3, sfTag := 12, macUplink := true }

/-- A 10-byte packet at spreading factor 12, also wrap-free. -/
def byte10Packet : Packet :=
  { pid := 4, size := 10, sfTag := 12, macUplink := true }

/-- The default profile at spreading factor 12. -/
def paramsSf12 : LoraTxParameters :=
  { defaultTxParams with sf := 12 }

/- Helper lemmas about the association-list map operations. -/

theorem mfind_some_mem {K V : Type} [DecidableEq K] (k : K) (v : V) :
    ∀ m : List (K × V), mfind k m = some v → (k, v) ∈ m := by
  intro m
  induction m with
  | nil => intro h; simp [mfind] at h
  | cons e rest ih =>
    intro h
    unfold mfind at h
    by_cases he : e.1 = k
    · rw [if_pos he] at h
      have hv : e.2 = v := Option.some.inj h
      have he2 : e = (k, v) := by
        calc e = (e.1, e.2) := rfl
          _ = (k, v) := by rw [he, hv]
      rw [he2]
      exact List.mem_cons_self (k, v) rest
    · rw [if_neg he] at h
      exact List.mem_cons_of_mem e (ih h)

theorem minsert_of_found {K V : Type} [DecidableEq K] (k : K) (v w : V)
    (m : List (K × V)) (h : mfind k m = some w) : minsert k v m = m := by
  unfold minsert
  rw [h]

theorem mupdate_fix {K V : Type} [DecidableEq K] (k : K) (f : V → V)
    (v : V) : ∀ m : List (K × V), mfind k m = some v → f v = v →
    mupdate k f m = m := by
  intro m
  induction m with
  | nil => intro _ _; rfl
  | cons e rest ih =>
    intro hfind hfix
    unfold mfind at hfind
    unfold mupdate
    by_cases he : e.1 = k
    · rw [if_pos he]
      rw [if_pos he] at hfind
      have hv : e.2 = v := Option.some.inj hfind
      rw [hv, hfix, ← hv]
    · rw [if_neg he]
      rw [if_neg he] at hfind
      rw [ih hfind hfix]

theorem mupdate_mem {K V : Type} [DecidableEq K] (k : K) (f : V → V) :
    ∀ (m : List (K × V)) (e : K × V), e ∈ mupdate k f m →
      e ∈ m ∨ ∃ w, (k, w) ∈ m ∧ e = (k, f w) := by
  intro m
  induction m with
  | nil => intro e he; simp [mupdate] at he
  | cons hd rest ih =>
    intro e he
    unfold mupdate at he
    by_cases hk : hd.1 = k
    · rw [if_pos hk] at he
      rcases List.mem_cons.mp he with h1 | h2
      · right
        refine ⟨hd.2, ?_, by rw [h1, hk]⟩
        have hhd : (k, hd.2) = hd := by
          calc (k, hd.2) = (hd.1, hd.2) := by rw [hk]
            _ = hd := rfl
        rw [hhd]
        exact List.mem_cons_self hd rest
      · left
        exact List.mem_cons_of_mem hd h2
    · rw [if_neg hk] at he
      rcases List.mem_cons.mp he with h1 | h2
      · left
        rw [h1]
        exact List.mem_cons_self hd rest
      · rcases ih e h2 with h3 | ⟨w, hw, hew⟩
        · exact Or.inl (List.mem_cons_of_mem hd h3)
        · exact Or.inr ⟨w, List.mem_cons_of_mem hd hw, hew⟩

/-- C3: code-bug evaluation.  On a packet never recorded as transmitted,
the PHY outcome path hits the unchecked end-iterator dereference
(undefined behavior, no reported error), while only the MAC gateway path
raises the reported abort the claim describes for every operation. -/
theorem unknown_packet_reporting_divergence :
    PacketReceptionCallback exPacket 1 emptyTracker =
      Except.error TrackerError.uncheckedEndDereference ∧
    MacGwReceptionCallback exPacket 1 0 emptyTracker =
      Except.error TrackerError.abortPacketNotFound :=
  ⟨rfl, rfl⟩

/-- C4 counterexample: with RECEIVED already recorded for (exPacket,
gateway 1), a second outcome event for the same pair returns ok with the
tracker unchanged — the duplicate is silently ignored, not rejected as a
protocol error. -/
theorem duplicate_outcome_silently_accepted :
    InterferenceCallback exPacket 1 exTracker = Except.ok exTracker :=
  rfl

/-- C4 (amended): outcomes are write-once per (packet, gateway) pair, and
a duplicate outcome event is silently ignored: whenever the packet record
already holds an outcome for the gateway, any further outcome callback
for that pair succeeds and leaves the whole tracker unchanged (the
original outcome in particular), reporting no error. -/
theorem phyOutcome_write_once (outcome : PhyPacketOutcome) (packet : Packet)
    (gwId : ℕ) (t : LoraPacketTracker) (st : PacketStatus)
    (prev : PhyPacketOutcome)
    (hfind : mfind packet.pid t.m_packetTracker = some st)
    (hdup : mfind gwId st.outcomes = some prev) :
    phyOutcomeCallback outcome packet gwId t = Except.ok t := by
  unfold phyOutcomeCallback
  by_cases hup : IsUplink packet
  · rw [if_pos hup, hfind]
    have hfix : (fun s => { s with outcomes := minsert gwId outcome s.outcomes }) st = st := by
      have h1 : minsert gwId outcome st.outcomes = st.outcomes :=
        minsert_of_found gwId outcome prev st.outcomes hdup
      simp [h1]
    rw [mupdate_fix packet.pid _ st t.m_packetTracker hfind hfix]
  · rw [if_neg hup]

/-- C4 witness: the write-once theorem applied to exTracker, where
gateway 1 already reported RECEIVED for exPacket. -/
theorem phyOutcome_write_once_witness :
    phyOutcomeCallback PhyPacketOutcome.NO_MORE_RECEIVERS exPacket 1
      exTracker = Except.ok exTracker :=
  phyOutcome_write_once PhyPacketOutcome.NO_MORE_RECEIVERS exPacket 1
    exTracker
    { packet := exPacket, senderId := 3, sendTime := 0,
      outcomes := [(1, PhyPacketOutcome.RECEIVED)] }
    PhyPacketOutcome.RECEIVED rfl rfl

/-- C6: code-bug evaluation.  For one in-range record whose only outcome
is UNDER_SENSITIVITY at gateway 1, CountPhyPacketsPerGw reports it at
index 4 (its underSensitivityPackets slot, matching the header comment of
both functions), while PrintPhyPacketsPerGw prints it at index 5: the two
functions swap positions 4 and 5. -/
theorem count_print_order_mismatch :
    CountPhyPacketsPerGw 0 2 1 usTracker = [1, 0, 0, 0, 1, 0] ∧
    PrintPhyPacketsPerGw 0 2 1 usTracker = [1, 0, 0, 0, 0, 1] :=
  ⟨rfl, rfl⟩

/-- C10: every tracker recording operation named by the claim (PHY
transmission, MAC transmission, MAC gateway reception and the five PHY
outcome callbacks) leaves the tracker completely unchanged when the
packet is not an uplink packet. -/
theorem downlink_events_are_noops (packet : Packet) (edId ctx gwId : ℕ)
    (now : ℤ) (t : LoraPacketTracker) (h : IsUplink packet = false) :
    TransmissionCallback packet edId now t = t ∧
    MacTransmissionCallback packet ctx now t = t ∧
    MacGwReceptionCallback packet ctx now t = Except.ok t ∧
    PacketReceptionCallback packet gwId t = Except.ok t ∧
    InterferenceCallback packet gwId t = Except.ok t ∧
    NoMoreReceiversCallback packet gwId t = Except.ok t ∧
    UnderSensitivityCallback packet gwId t = Except.ok t ∧
    LostBecauseTxCallback packet gwId t = Except.ok t := by
  unfold TransmissionCallback MacTransmissionCallback MacGwReceptionCallback
    PacketReceptionCallback InterferenceCallback NoMoreReceiversCallback
    UnderSensitivityCallback LostBecauseTxCallback phyOutcomeCallback
  simp [h]

/-- C10 witness: the no-op theorem applied to a concrete downlink packet
over the nonempty tracker exTracker. -/
theorem downlink_events_are_noops_witness :
    TransmissionCallback exDownlinkPacket 1 0 exTracker = exTracker ∧
    MacTransmissionCallback exDownlinkPacket 1 0 exTracker = exTracker ∧
    MacGwReceptionCallback exDownlinkPacket 1 0 exTracker =
      Except.ok exTracker ∧
    PacketReceptionCallback exDownlinkPacket 1 exTracker =
      Except.ok exTracker ∧
    InterferenceCallback exDownlinkPacket 1 exTracker =
      Except.ok exTracker ∧
    NoMoreReceiversCallback exDownlinkPacket 1 exTracker =
      Except.ok exTracker ∧
    UnderSensitivityCallback exDownlinkPacket 1 exTracker =
      Except.ok exTracker ∧
    LostBecauseTxCallback exDownlinkPacket 1 exTracker =
      Except.ok exTracker :=
  downlink_events_are_noops exDownlinkPacket 1 1 1 0 exTracker rfl

/-- One MAC gateway-reception update preserves the earliest-reception
invariant, provided the event time is no earlier than the times already
recorded (the simulator delivers events in non-decreasing time order). -/
theorem macGwUpdate_inv (ctx : ℕ) (now : ℤ) (st : MacPacketStatus)
    (hinv : MacInv st) (htimes : ∀ x ∈ st.receptionTimes, x.2 ≤ now) :
    MacInv (macGwUpdate ctx now st) := by
  unfold MacInv at hinv ⊢
  unfold macGwUpdate
  dsimp only
  rcases hf : mfind ctx st.receptionTimes with _ | v
  · have hm : minsert ctx now st.receptionTimes =
        (ctx, now) :: st.receptionTimes := by
      unfold minsert
      rw [hf]
    rw [hm, List.map_cons, List.minimum_cons, hinv]
    rcases lt_or_ge ((now : WithTop ℤ))
        ((st.receptionTimes.map Prod.snd).minimum) with hlt | hge
    · rw [if_pos hlt, min_eq_left hlt.le]
    · rw [if_neg (not_lt.mpr hge), min_eq_right hge]
  · have hm : minsert ctx now st.receptionTimes = st.receptionTimes :=
      minsert_of_found ctx now v _ hf
    have hmem : (ctx, v) ∈ st.receptionTimes := mfind_some_mem ctx v _ hf
    have hvle : v ≤ now := htimes (ctx, v) hmem
    have hmin : (st.receptionTimes.map Prod.snd).minimum ≤ (v : WithTop ℤ) :=
      List.minimum_le_of_mem' (List.mem_map_of_mem Prod.snd hmem)
    have hler : st.receivedTime ≤ (now : WithTop ℤ) := by
      rw [hinv]
      exact le_trans hmin (by exact_mod_cast hvle)
    rw [hm, if_neg (not_lt.mpr hler), hinv]

/-- C7: the earliest-reception invariant holds for every MacPacketRecord
in every reachable tracker state.  A MAC transmission creates its record
with an empty reception map and receivedTime = Time::Max = top (for which
the invariant holds), and a MAC gateway-reception event preserves the
invariant for every record, whatever the order the gateways report in, as
long as event times are non-decreasing (the simulated-time guarantee),
i.e. the new event is no earlier than the recorded reception times. -/
theorem mac_earliest_reception_invariant (packet : Packet) (ctx : ℕ)
    (now : ℤ) (t : LoraPacketTracker)
    (hinv : ∀ e ∈ t.m_macPacketTracker, MacInv e.2)
    (htimes : ∀ e ∈ t.m_macPacketTracker, ∀ x ∈ e.2.receptionTimes,
      x.2 ≤ now) :
    (∀ e ∈ (MacTransmissionCallback packet ctx now t).m_macPacketTracker,
      MacInv e.2) ∧
    (∀ t2, MacGwReceptionCallback packet ctx now t = Except.ok t2 →
      ∀ e ∈ t2.m_macPacketTracker, MacInv e.2) := by
  constructor
  · intro e he
    unfold MacTransmissionCallback at he
    by_cases hup : IsUplink packet
    · rw [if_pos hup] at he
      dsimp only at he
      unfold minsert at he
      rcases hfind : mfind packet.pid t.m_macPacketTracker with _ | v
      · rw [hfind] at he
        rcases List.mem_cons.mp he with h1 | h2
        · rw [h1]
          rfl
        · exact hinv e h2
      · rw [hfind] at he
        exact hinv e he
    · rw [if_neg hup] at he
      exact hinv e he
  · intro t2 h2 e he
    unfold MacGwReceptionCallback at h2
    by_cases hup : IsUplink packet
    · rw [if_pos hup] at h2
      rcases hfind : mfind packet.pid t.m_macPacketTracker with _ | v
      · rw [hfind] at h2
        cases h2
      · rw [hfind] at h2
        dsimp only at h2
        have ht2 := (Except.ok.inj h2).symm
        rw [ht2] at he
        dsimp only at he
        rcases mupdate_mem packet.pid (macGwUpdate ctx now)
            t.m_macPacketTracker e he with h3 | ⟨w, hw, hew⟩
        · exact hinv e h3
        · rw [hew]
          exact macGwUpdate_inv ctx now w (hinv (packet.pid, w) hw)
            (htimes (packet.pid, w) hw)
    · rw [if_neg hup] at h2
      have ht2 : t2 = t := (Except.ok.inj h2).symm
      rw [ht2] at he
      exact hinv e he

/-- C7 witness: over macTracker (one record, gateway 1 received at time
3), a gateway-2 reception at time 4 yields a record whose receivedTime 3
is still the minimum of its reception map. -/
theorem mac_earliest_reception_invariant_witness :
    MacInv { packet := exPacket, senderId := 2, sendTime := 0,
             receivedTime := ((3 : ℤ) : WithTop ℤ),
             receptionTimes := [(2, 4), (1, 3)] } :=
  (mac_earliest_reception_invariant exPacket 2 4 macTracker
      (by
        intro e he
        have he2 := List.mem_singleton.mp he
        rw [he2]
        rfl)
      (by
        intro e he x hx
        have he2 := List.mem_singleton.mp he
        rw [he2] at hx
        have hx2 := List.mem_singleton.mp hx
        rw [hx2]
        decide)).2
    macTrackerAfter rfl
    (1, { packet := exPacket, senderId := 2, sendTime := 0,
          receivedTime := ((3 : ℤ) : WithTop ℤ),
          receptionTimes := [(2, 4), (1, 3)] })
    (List.mem_singleton.mpr rfl)

/-- When some gateway recorded RECEIVED, the loop reaches it (nothing
breaks earlier) and sets the received flag. -/
theorem statLoop_fst_of_received :
    ∀ (outs : List (ℕ × PhyPacketOutcome)) (i n b : Bool),
      (∃ e ∈ outs, e.2 = PhyPacketOutcome.RECEIVED) →
      (statLoop outs i n b).1 = true := by
  intro outs
  induction outs with
  | nil => intro i n b h; simp at h
  | cons hd tl ih =>
    intro i n b h
    by_cases hr : hd.2 = PhyPacketOutcome.RECEIVED
    · simp [statLoop, hr]
    · have h2 : ∃ e ∈ tl, e.2 = PhyPacketOutcome.RECEIVED := by
        rcases h with ⟨e, he, hee⟩
        rcases List.mem_cons.mp he with h3 | h4
        · rw [h3] at hee
          exact absurd hee hr
        · exact ⟨e, h4, hee⟩
      rw [statLoop, if_neg hr]
      split_ifs <;> exact ih _ _ _ h2

/-- When no gateway recorded RECEIVED, the loop runs to the end and each
flag ends up true iff it started true or its outcome occurs. -/
theorem statLoop_of_no_received :
    ∀ (outs : List (ℕ × PhyPacketOutcome)) (i n b : Bool),
      (∀ e ∈ outs, e.2 ≠ PhyPacketOutcome.RECEIVED) →
      statLoop outs i n b = (false,
        i || outs.any (fun e => decide (e.2 = PhyPacketOutcome.INTERFERED)),
        n || outs.any (fun e => decide (e.2 = PhyPacketOutcome.NO_MORE_RECEIVERS)),
        b || outs.any (fun e => decide (e.2 = PhyPacketOutcome.LOST_BECAUSE_TX))) := by
  intro outs
  induction outs with
  | nil => intro i n b _; simp [statLoop]
  | cons hd tl ih =>
    intro i n b h
    have hr : hd.2 ≠ PhyPacketOutcome.RECEIVED :=
      h hd (List.mem_cons_self hd tl)
    have htl : ∀ e ∈ tl, e.2 ≠ PhyPacketOutcome.RECEIVED :=
      fun e he => h e (List.mem_cons_of_mem hd he)
    cases ho : hd.2 with
    | RECEIVED => exact absurd ho hr
    | INTERFERED =>
      cases i <;> simp [statLoop, ho, ih _ _ _ htl]
    | NO_MORE_RECEIVERS =>
      cases n <;> simp [statLoop, ho, ih _ _ _ htl]
    | UNDER_SENSITIVITY =>
      simp [statLoop, ho, ih _ _ _ htl]
    | LOST_BECAUSE_TX =>
      cases b <;> simp [statLoop, ho, ih _ _ _ htl]
    | UNSET =>
      simp [statLoop, ho, ih _ _ _ htl]

/-- The loop-and-if-chain classification of the source is exactly the
priority classification the spec describes. -/
theorem recordCategory_eq_priorityClassify
    (outs : List (ℕ × PhyPacketOutcome)) :
    recordCategory outs = priorityClassify outs := by
  unfold recordCategory priorityClassify
  by_cases hrec : ∃ e ∈ outs, e.2 = PhyPacketOutcome.RECEIVED
  · rw [if_pos hrec]
    have h1 := statLoop_fst_of_received outs false false false hrec
    rcases hsl : statLoop outs false false false with ⟨r, i, n, b⟩
    rw [hsl] at h1
    simp only at h1
    rw [h1]
    rfl
  · rw [if_neg hrec]
    push_neg at hrec
    rw [statLoop_of_no_received outs false false false hrec]
    by_cases h2 : ∃ e ∈ outs, e.2 = PhyPacketOutcome.INTERFERED <;>
      by_cases h3 : ∃ e ∈ outs, e.2 = PhyPacketOutcome.NO_MORE_RECEIVERS <;>
      by_cases h4 : ∃ e ∈ outs, e.2 = PhyPacketOutcome.LOST_BECAUSE_TX <;>
      simp [classifyFlags, List.any_eq_true, h2, h3, h4]

/-- Each record lands in exactly one category, so the five per-category
filters partition any record list. -/
theorem category_partition (l : List PacketStatus) :
    (l.filter (categoryIs StatCategory.received)).length +
      (l.filter (categoryIs StatCategory.interfered)).length +
      (l.filter (categoryIs StatCategory.noMorePaths)).length +
      (l.filter (categoryIs StatCategory.busyGw)).length +
      (l.filter (categoryIs StatCategory.underSens)).length = l.length := by
  induction l with
  | nil => rfl
  | cons hd tl ih =>
    cases hcat : recordCategory hd.outcomes <;>
      simp [List.filter_cons, categoryIs, hcat] <;> omega

/-- C2: every in-range record is classified by the priority order
Received, then Interfered, then NoMoreReceivers, then LostBecauseTx
(busy gateway), then UnderSensitivity, over the outcomes recorded across
all gateways; each record lands in exactly one category, so the five
counters sum to the total and the five reported percentages sum to
exactly 100 whenever the window is non-empty. -/
theorem simulation_statistics_partition (t : LoraPacketTracker)
    (startTime now : ℤ) (s : SimulationStatistics)
    (h : PrintSimulationStatistics t startTime now = Except.ok s) :
    (∀ st ∈ inRangeRecords t startTime,
      recordCategory st.outcomes = priorityClassify st.outcomes) ∧
    s.totReceived + s.totInterfered + s.totNoMorePaths + s.totBusyGw +
      s.totUnderSens = s.total ∧
    (s.total ≠ 0 →
      s.pctReceived.getD 0 + s.pctInterfered.getD 0 +
        s.pctNoMorePaths.getD 0 + s.pctBusyGw.getD 0 +
        s.pctUnderSens.getD 0 = 100) := by
  have hs : s = simStats t startTime now := by
    unfold PrintSimulationStatistics at h
    split_ifs at h
    exact (Except.ok.inj h).symm
  subst hs
  refine ⟨fun st _ => recordCategory_eq_priorityClassify st.outcomes, ?_, ?_⟩
  · exact category_partition (inRangeRecords t startTime)
  · intro hT
    have hTn : (inRangeRecords t startTime).length ≠ 0 := hT
    have hpart := category_partition (inRangeRecords t startTime)
    have hcast :
        (((inRangeRecords t startTime).filter
            (categoryIs StatCategory.received)).length : ℚ) +
          (((inRangeRecords t startTime).filter
            (categoryIs StatCategory.interfered)).length : ℚ) +
          (((inRangeRecords t startTime).filter
            (categoryIs StatCategory.noMorePaths)).length : ℚ) +
          (((inRangeRecords t startTime).filter
            (categoryIs StatCategory.busyGw)).length : ℚ) +
          (((inRangeRecords t startTime).filter
            (categoryIs StatCategory.underSens)).length : ℚ) =
          ((inRangeRecords t startTime).length : ℚ) := by
      exact_mod_cast hpart
    have hTQ : ((inRangeRecords t startTime).length : ℚ) ≠ 0 :=
      Nat.cast_ne_zero.mpr hTn
    show (pct ((inRangeRecords t startTime).filter
        (categoryIs StatCategory.received)).length
        (inRangeRecords t startTime).length).getD 0 +
      (pct ((inRangeRecords t startTime).filter
        (categoryIs StatCategory.interfered)).length
        (inRangeRecords t startTime).length).getD 0 +
      (pct ((inRangeRecords t startTime).filter
        (categoryIs StatCategory.noMorePaths)).length
        (inRangeRecords t startTime).length).getD 0 +
      (pct ((inRangeRecords t startTime).filter
        (categoryIs StatCategory.busyGw)).length
        (inRangeRecords t startTime).length).getD 0 +
      (pct ((inRangeRecords t startTime).filter
        (categoryIs StatCategory.underSens)).length
        (inRangeRecords t startTime).length).getD 0 = 100
    simp only [pct, if_neg hTn, Option.getD_some]
    field_simp
    linarith [hcast]

/-- C2 witness: over exTracker (one record, RECEIVED at gateway 1) with
window 0 to 10, the counters sum to the total and the percentages sum to
100. -/
theorem simulation_statistics_partition_witness :
    PrintSimulationStatistics exTracker 0 10 = Except.ok exStats ∧
    exStats.totReceived + exStats.totInterfered + exStats.totNoMorePaths +
      exStats.totBusyGw + exStats.totUnderSens = exStats.total ∧
    exStats.pctReceived.getD 0 + exStats.pctInterfered.getD 0 +
      exStats.pctNoMorePaths.getD 0 + exStats.pctBusyGw.getD 0 +
      exStats.pctUnderSens.getD 0 = 100 :=
  have h : PrintSimulationStatistics exTracker 0 10 = Except.ok exStats := rfl
  ⟨h, (simulation_statistics_partition exTracker 0 10 exStats h).2.1,
    (simulation_statistics_partition exTracker 0 10 exStats h).2.2
      (by decide)⟩

/-- C5 counterexample: with no packet in range the operation does not
fail with a typed NoTraffic result: it still returns a report, whose
total is 0 and whose received percentage is the NaN of the unguarded
division 0.0/0.0 (embedded as none). -/
theorem no_traffic_not_failed :
    (PrintSimulationStatistics emptyTracker 0 10).toOption.isSome = true ∧
    (PrintSimulationStatistics emptyTracker 0 10).toOption.map
      SimulationStatistics.total = some 0 ∧
    (PrintSimulationStatistics emptyTracker 0 10).toOption.map
      SimulationStatistics.pctReceived = some none :=
  ⟨rfl, rfl, rfl⟩

/-- C5 (amended): when no PhyPacketRecord falls in the window,
PrintSimulationStatistics does not fail with a NoTraffic result: as long
as its entry assertion startTime less than now holds it succeeds, and the
empty window makes every percentage the NaN (none) of an unguarded
division by the zero packet count. -/
theorem print_statistics_empty_window_nan (t : LoraPacketTracker)
    (startTime now : ℤ) (h : startTime < now) :
    (PrintSimulationStatistics t startTime now).toOption.isSome = true ∧
    (∀ s, PrintSimulationStatistics t startTime now = Except.ok s →
      s.total = 0 →
      s.pctReceived = none ∧ s.pctInterfered = none ∧
      s.pctNoMorePaths = none ∧ s.pctBusyGw = none ∧
      s.pctUnderSens = none) := by
  constructor
  · unfold PrintSimulationStatistics
    rw [if_pos h]
    rfl
  · intro s hs h0
    have hseq : s = simStats t startTime now := by
      unfold PrintSimulationStatistics at hs
      rw [if_pos h] at hs
      exact (Except.ok.inj hs).symm
    subst hseq
    have h0n : (inRangeRecords t startTime).length = 0 := h0
    refine ⟨?_, ?_, ?_, ?_, ?_⟩ <;> simp [simStats, pct, h0n]

/-- C5 witness: the empty-window theorem applied to the empty tracker:
the report is produced and all five percentages are the NaN marker. -/
theorem print_statistics_empty_window_nan_witness :
    (PrintSimulationStatistics emptyTracker 0 10).toOption.isSome = true ∧
    emptyStats.pctReceived = none ∧ emptyStats.pctInterfered = none ∧
    emptyStats.pctNoMorePaths = none ∧ emptyStats.pctBusyGw = none ∧
    emptyStats.pctUnderSens = none :=
  have happ := print_statistics_empty_window_nan emptyTracker 0 10 (by decide)
  have hp := happ.2 emptyStats rfl rfl
  ⟨happ.1, hp.1, hp.2.1, hp.2.2.1, hp.2.2.2.1, hp.2.2.2.2⟩

/-- Effect of one counting-loop iteration on the sent counter. -/
theorem tallyStep_sent (startTime stopTime : ℤ) (gwId : ℕ)
    (c : PacketCounts) (st : PacketStatus) :
    (tallyStep startTime stopTime gwId c st).sent =
      c.sent + (if startTime ≤ st.sendTime ∧ st.sendTime ≤ stopTime
        then 1 else 0) := by
  unfold tallyStep
  split_ifs with hin
  · rcases hf : mfind gwId st.outcomes with _ | o
    · simp [hf]
    · cases o <;> simp [hf]
  · rfl

/-- Effect of one counting-loop iteration on the five outcome counters:
they grow by one exactly for an in-range record with a set outcome at the
gateway. -/
theorem tallyStep_fiveSum (startTime stopTime : ℤ) (gwId : ℕ)
    (c : PacketCounts) (st : PacketStatus) :
    fiveSum (tallyStep startTime stopTime gwId c st) =
      fiveSum c + (if (startTime ≤ st.sendTime ∧ st.sendTime ≤ stopTime) ∧
        isSetOutcome (mfind gwId st.outcomes) = true then 1 else 0) := by
  by_cases hin : startTime ≤ st.sendTime ∧ st.sendTime ≤ stopTime
  · rcases hf : mfind gwId st.outcomes with _ | o
    · simp [tallyStep, fiveSum, hin, hf, isSetOutcome]
    · cases o <;> simp [tallyStep, fiveSum, hin, hf, isSetOutcome] <;> omega
  · simp [tallyStep, fiveSum, hin]

/-- The counting loop, over any record list from any starting counters:
sent grows by the number of in-range records, and the five outcome
counters together grow by the number of in-range records with a set
outcome at the gateway. -/
theorem tallyFold_counts (startTime stopTime : ℤ) (gwId : ℕ) :
    ∀ (l : List (ℕ × PacketStatus)) (c : PacketCounts),
      (l.foldl (fun acc e => tallyStep startTime stopTime gwId acc e.2)
        c).sent = c.sent + (l.filter (fun e =>
          decide (startTime ≤ e.2.sendTime ∧ e.2.sendTime ≤ stopTime))).length ∧
      fiveSum (l.foldl (fun acc e => tallyStep startTime stopTime gwId acc e.2)
        c) = fiveSum c + (l.filter (fun e =>
          decide (startTime ≤ e.2.sendTime ∧ e.2.sendTime ≤ stopTime) &&
            isSetOutcome (mfind gwId e.2.outcomes))).length := by
  intro l
  induction l with
  | nil => intro c; simp
  | cons hd tl ih =>
    intro c
    obtain ⟨ih1, ih2⟩ := ih (tallyStep startTime stopTime gwId c hd.2)
    constructor
    · rw [List.foldl_cons, ih1, tallyStep_sent]
      by_cases hin : startTime ≤ hd.2.sendTime ∧ hd.2.sendTime ≤ stopTime <;>
        simp [List.filter_cons, hin] <;> omega
    · rw [List.foldl_cons, ih2, tallyStep_fiveSum]
      by_cases hin : startTime ≤ hd.2.sendTime ∧ hd.2.sendTime ≤ stopTime <;>
        by_cases hset : isSetOutcome (mfind gwId hd.2.outcomes) = true <;>
        simp [List.filter_cons, hin, hset] <;> omega

/-- Filtering on a conjunction keeps at most as many elements as
filtering on the first conjunct. -/
theorem length_filter_and_le {α : Type} (p q : α → Bool) :
    ∀ l : List α,
      (l.filter fun a => p a && q a).length ≤ (l.filter p).length := by
  intro l
  induction l with
  | nil => simp
  | cons hd tl ih =>
    by_cases hp : p hd <;> by_cases hq : q hd <;>
      simp [List.filter_cons, hp, hq] <;> omega

/-- C8: in the vector returned by CountPhyPacketsPerGw, the sent counter
(position 0) counts exactly the records with sendTime in the closed
window, the five outcome counters (positions 1 to 5) together count
exactly the in-range records carrying a set (non-UNSET) outcome entry for
the gateway — so a record with no entry, or an UNSET entry, contributes
to sent only — and their sum therefore never exceeds the sent counter. -/
theorem count_phy_packets_per_gw_totals (startTime stopTime : ℤ)
    (gwId : ℕ) (t : LoraPacketTracker) :
    (CountPhyPacketsPerGw startTime stopTime gwId t).getD 0 0 =
      (t.m_packetTracker.filter (fun e =>
        decide (startTime ≤ e.2.sendTime ∧ e.2.sendTime ≤ stopTime))).length ∧
    (CountPhyPacketsPerGw startTime stopTime gwId t).getD 1 0 +
      (CountPhyPacketsPerGw startTime stopTime gwId t).getD 2 0 +
      (CountPhyPacketsPerGw startTime stopTime gwId t).getD 3 0 +
      (CountPhyPacketsPerGw startTime stopTime gwId t).getD 4 0 +
      (CountPhyPacketsPerGw startTime stopTime gwId t).getD 5 0 =
      (t.m_packetTracker.filter (fun e =>
        decide (startTime ≤ e.2.sendTime ∧ e.2.sendTime ≤ stopTime) &&
          isSetOutcome (mfind gwId e.2.outcomes))).length ∧
    (CountPhyPacketsPerGw startTime stopTime gwId t).getD 1 0 +
      (CountPhyPacketsPerGw startTime stopTime gwId t).getD 2 0 +
      (CountPhyPacketsPerGw startTime stopTime gwId t).getD 3 0 +
      (CountPhyPacketsPerGw startTime stopTime gwId t).getD 4 0 +
      (CountPhyPacketsPerGw startTime stopTime gwId t).getD 5 0 ≤
      (CountPhyPacketsPerGw startTime stopTime gwId t).getD 0 0 := by
  obtain ⟨h1, h2⟩ := tallyFold_counts startTime stopTime gwId
    t.m_packetTracker
    { sent := 0, received := 0, interfered := 0, noMoreReceivers := 0,
      underSensitivity := 0, lostBecauseTx := 0 }
  have h3 := length_filter_and_le
    (fun e : ℕ × PacketStatus =>
      decide (startTime ≤ e.2.sendTime ∧ e.2.sendTime ≤ stopTime))
    (fun e : ℕ × PacketStatus => isSetOutcome (mfind gwId e.2.outcomes))
    t.m_packetTracker
  refine ⟨?_, ?_, ?_⟩
  · show (tallyPhyPacketsPerGw startTime stopTime gwId t).sent = _
    unfold tallyPhyPacketsPerGw
    simpa using h1
  · show fiveSum (tallyPhyPacketsPerGw startTime stopTime gwId t) = _
    unfold tallyPhyPacketsPerGw
    simpa [fiveSum] using h2
  · show fiveSum (tallyPhyPacketsPerGw startTime stopTime gwId t) ≤
      (tallyPhyPacketsPerGw startTime stopTime gwId t).sent
    unfold tallyPhyPacketsPerGw
    rw [h1, h2]
    simp only [fiveSum]
    omega

/-- C1: code-bug evaluation.  For a 1-byte packet at spreading factor 12
under the default profile (CRC on, explicit header, coding rate 1,
bandwidth 125000 Hz, 8 preamble symbols, low-data-rate optimization
off), the uint32 intermediate 8*1 - 4*12 + 28 wraps to 4294967284
instead of taking the value -12 the formula needs, so GetOnAirTime
computes 447392438 payload symbols and 229064934528/15625 seconds on
air, while the formula the spec states — whose max-with-0 clamp exists
precisely for this negative-numerator case, per the SX1272 modem-guide
reference the source itself cites — gives 13 payload symbols and
12928/15625 seconds. -/
theorem onAirTime_uint32_wrap_divergence :
    GetOnAirTime smallPacket paramsSf12 = 229064934528 / 15625 ∧
    onAirTimeSpec 1 12 1 125000 8 false true false = 12928 / 15625 ∧
    onAirTimeSpec 1 12 1 125000 8 false true false <
      GetOnAirTime smallPacket paramsSf12 := by
  have hca : ⌈(4294967300 : ℚ) / 48⌉ = 89478486 := by
    norm_num [Int.ceil_eq_iff]
  have hcb : ⌈(1073741825 : ℚ) / 12⌉ = 89478486 := by
    norm_num [Int.ceil_eq_iff]
  have hcc : ⌈(4 : ℚ) / 48⌉ = 1 := by norm_num [Int.ceil_eq_iff]
  have hcd : ⌈(1 : ℚ) / 12⌉ = 1 := by norm_num [Int.ceil_eq_iff]
  have ha : GetOnAirTime smallPacket paramsSf12 = 229064934528 / 15625 := by
    norm_num [GetOnAirTime, GetTSym, smallPacket, paramsSf12,
      defaultTxParams, Int.emod_emod_of_dvd, hca, hcb]
  have hb : onAirTimeSpec 1 12 1 125000 8 false true false =
      12928 / 15625 := by
    norm_num [onAirTimeSpec, hcc, hcd]
  refine ⟨ha, hb, ?_⟩
  rw [ha, hb]
  norm_num

/-- C9 counterexample: at spreading factor 12 under the default profile,
a 3-byte packet (numerator 20, no wrap, 13 payload symbols) occupies the
air strictly less time than a 2-byte packet (numerator intermediate -4
wrapped to 4294967292, hence 447392438 payload symbols): a packet with
more payload bytes does not have an on-air time at least as large. -/
theorem onAirTime_decreases_at_wrap :
    GetOnAirTime byte3Packet paramsSf12 <
      GetOnAirTime largerPacket paramsSf12 := by
  have hca : ⌈(4294967308 : ℚ) / 48⌉ = 89478486 := by
    norm_num [Int.ceil_eq_iff]
  have hcb : ⌈(1073741827 : ℚ) / 12⌉ = 89478486 := by
    norm_num [Int.ceil_eq_iff]
  have hcc : ⌈(20 : ℚ) / 48⌉ = 1 := by norm_num [Int.ceil_eq_iff]
  have hcd : ⌈(5 : ℚ) / 12⌉ = 1 := by norm_num [Int.ceil_eq_iff]
  have ha : GetOnAirTime byte3Packet paramsSf12 = 12928 / 15625 := by
    norm_num [GetOnAirTime, GetTSym, byte3Packet, paramsSf12,
      defaultTxParams, hcc, hcd]
  have hb : GetOnAirTime largerPacket paramsSf12 = 229064934528 / 15625 := by
    norm_num [GetOnAirTime, GetTSym, largerPacket, paramsSf12,
      defaultTxParams, hca, hcb]
  rw [ha, hb]
  norm_num

/-- C9 (amended): in the wrap-free region — spreading factor small enough
that 4*sf ≤ 8*payloadBytes + 28 already for the smaller packet, and the
larger packet's numerator intermediate below 2^32 — the on-air time is
monotonically nondecreasing in the payload byte count, all other
parameters fixed, for a positive bandwidth and a spreading factor above
twice the low-data-rate flag.  Outside that region the uint32 wrap
breaks monotonicity (see the counterexample). -/
theorem GetOnAirTime_mono_payload_no_wrap (p1 p2 : Packet)
    (params : LoraTxParameters) (hsize : p1.size ≤ p2.size)
    (hlow : 4 * (params.sf : ℤ) ≤ 8 * (p1.size : ℤ) + 28)
    (hhigh : 8 * (p2.size : ℤ) - 4 * (params.sf : ℤ) + 28 < 2 ^ 32)
    (hsf : 2 * (if params.lowDataRateOptimizationEnabled then (1 : ℚ)
      else 0) < (params.sf : ℚ))
    (hbw : 0 < params.bandwidthHz) :
    GetOnAirTime p1 params ≤ GetOnAirTime p2 params := by
  have hcast : (p1.size : ℤ) ≤ (p2.size : ℤ) := Int.ofNat_le.mpr hsize
  have h1 : (8 * (p1.size : ℤ) - 4 * (params.sf : ℤ) + 28) % 2 ^ 32 =
      8 * (p1.size : ℤ) - 4 * (params.sf : ℤ) + 28 :=
    Int.emod_eq_of_lt (by linarith) (by linarith)
  have h2 : (8 * (p2.size : ℤ) - 4 * (params.sf : ℤ) + 28) % 2 ^ 32 =
      8 * (p2.size : ℤ) - 4 * (params.sf : ℤ) + 28 :=
    Int.emod_eq_of_lt (by linarith) hhigh
  have hnum : 8 * (p1.size : ℤ) - 4 * (params.sf : ℤ) + 28 ≤
      8 * (p2.size : ℤ) - 4 * (params.sf : ℤ) + 28 := by linarith
  have htSym : (0:ℚ) ≤ GetTSym params := by
    unfold GetTSym
    positivity
  have hden : (0:ℚ) < 4 * ((params.sf : ℚ) -
      2 * (if params.lowDataRateOptimizationEnabled then (1:ℚ) else 0)) := by
    linarith
  simp only [GetOnAirTime, h1, h2]
  gcongr

/-- C9 witness: the wrap-free monotonicity theorem at the concrete 3-byte
and 10-byte spreading-factor-12 packets. -/
theorem GetOnAirTime_mono_payload_no_wrap_witness :
    GetOnAirTime byte3Packet paramsSf12 ≤
      GetOnAirTime byte10Packet paramsSf12 :=
  GetOnAirTime_mono_payload_no_wrap byte3Packet byte10Packet paramsSf12
    (by decide) (by decide) (by decide)
    (by norm_num [paramsSf12, defaultTxParams])
    (by norm_num [paramsSf12, defaultTxParams])

end Elora
